import Mathlib

/-!
Shallow embedding of the browser text-to-speech studio
(buildwithmomentum/text-to-speech-application).

The orchestration core lives in the main client component (`TTSApp`): it
drives synthesis requests, local history/preset state, Web Audio playback
and voice cloning.  React `useState` slots are collected into one record
`AppState`; every handler of the component becomes a pure state
transformer, with the nondeterministic environment (clock, fetch results,
decode success, fresh audio-node ids) passed explicitly.  Side effects
that the claims talk about (network calls, artifact creation, history
append, source start/stop) are additionally reported as an event trace.

JS numbers only ever get copied or compared by this code, so they are
embedded as `ℚ`; binary payloads are `List Nat` byte lists; slider states
are single-element lists exactly as in the source (`useState([0.5])`),
read through `elem0` which embeds the `xs[0]` access.
-/

namespace TTS

/-- A notification emitted through the `useToast` hook. -/
structure Toast where
  title : String
  description : String
  destructive : Bool
  deriving Repr, DecidableEq

/-- `Voice` record as in the client component. -/
structure Voice where
  voice_id : String
  name : String
  category : String
  deriving Repr, DecidableEq

/-- `AudioHistory` entry record as in the client component. -/
structure AudioHistory where
  id : String
  text : String
  voiceId : String
  voiceName : String
  timestamp : Nat
  duration : Nat
  deriving Repr, DecidableEq

/-- The `settings` bundle stored inside a `VoicePreset`. -/
structure PresetSettings where
  stability : ℚ
  similarity : ℚ
  style : ℚ
  use_speaker_boost : Bool
  deriving Repr, DecidableEq

/-- `VoicePreset` record as in the client component. -/
structure VoicePreset where
  id : String
  name : String
  voiceId : String
  settings : PresetSettings
  deriving Repr, DecidableEq

/-- `SavedAudio` record: the last generated audio artifact kept for export. -/
structure SavedAudio where
  blob : List Nat
  text : String
  voiceId : String
  timestamp : Nat
  deriving Repr, DecidableEq

/-- All `useState` slots of `TTSApp`, plus the module-level audio globals
(`audioContext`/`gainNode` existence as `audioCtxInit`, the gain value) and
the `sourceRef` handle to the active `AudioBufferSourceNode` (modelled by a
numeric node id).  `toasts` logs every emitted notification. -/
structure AppState where
  text : String
  isLoading : Bool
  voices : List Voice
  selectedVoice : String
  isLoadingVoices : Bool
  isRecording : Bool
  recordedAudio : Option (List Nat)
  audioURL : Option String
  recordingDuration : Nat
  isPlaying : Bool
  isPresetDialogOpen : Bool
  isVoiceDialogOpen : Bool
  presetName : String
  volume : List ℚ
  isMuted : Bool
  previousVolume : List ℚ
  stability : List ℚ
  similarity : List ℚ
  speed : List ℚ
  pitch : List ℚ
  style : List ℚ
  speakerBoost : Bool
  audioHistory : List AudioHistory
  presets : List VoicePreset
  selectedPreset : Option String
  savedAudio : Option SavedAudio
  isCloning : Bool
  selectedFile : Option String
  voiceName : String
  uploadProgress : ℚ
  characterCount : Nat
  wordCount : Nat
  estimatedDuration : Nat
  sourceRef : Option Nat
  audioCtxInit : Bool
  gainValue : ℚ
  toasts : List Toast
  deriving Repr, DecidableEq

/-- The initial state of `TTSApp`, from the `useState` initialisers. -/
def initialState : AppState :=
  { text := "", isLoading := false, voices := [], selectedVoice := "",
    isLoadingVoices := true, isRecording := false, recordedAudio := none,
    audioURL := none, recordingDuration := 0, isPlaying := false,
    isPresetDialogOpen := false, isVoiceDialogOpen := false, presetName := "",
    volume := [50], isMuted := false, previousVolume := [50],
    stability := [0.5], similarity := [0.70], speed := [1], pitch := [0],
    style := [0], speakerBoost := true, audioHistory := [], presets := [],
    selectedPreset := none, savedAudio := none, isCloning := false,
    selectedFile := none, voiceName := "", uploadProgress := 0,
    characterCount := 0, wordCount := 0, estimatedDuration := 0,
    sourceRef := none, audioCtxInit := false, gainValue := 1, toasts := [] }

/-- Append a toast to the notification log (`toast(...)` call). -/
def pushToast (st : AppState) (t : Toast) : AppState :=
  { st with toasts := st.toasts ++ [t] }

/-- JS `String.prototype.trim()`: strip leading and trailing whitespace,
embedded structurally over the character list. -/
def jsTrim (s : String) : String :=
  String.mk ((s.data.dropWhile Char.isWhitespace).reverse.dropWhile Char.isWhitespace).reverse

/-- The `xs[0]` access on a slider state; the source only ever stores
single-element arrays in those slots. -/
def elem0 (l : List ℚ) : ℚ := l.headD 0

/-- Toast shown by `synthesizeSpeech` when the text is empty. -/
def emptyTextToast : Toast :=
  ⟨"Error", "Please enter some text to convert to speech", true⟩

/-- Toast shown when synthesis (fetch or decode) fails. -/
def synthFailToast : Toast :=
  ⟨"Error", "Failed to generate speech. Please try again.", true⟩

/-- Toast shown when synthesis succeeds and playback starts. -/
def synthSuccessToast : Toast :=
  ⟨"Success", "Audio generated successfully!", false⟩

/-- Toast shown by `handleSavePreset`. -/
def presetSavedToast (name : String) : Toast :=
  ⟨"Preset Saved", "\"" ++ name ++ "\" has been saved to your presets.", false⟩

/-- Toast shown by `loadPreset` on a hit. -/
def presetLoadedToast (name : String) : Toast :=
  ⟨"Preset Loaded", "\"" ++ name ++ "\" settings have been applied.", false⟩

/-- Toast shown by `handleDeleteVoice` on success. -/
def deleteVoiceSuccessToast : Toast :=
  ⟨"Success", "Voice deleted successfully", false⟩

/-- Toast shown by `handleDeleteVoice` on failure. -/
def deleteVoiceFailToast : Toast :=
  ⟨"Error", "Failed to delete voice. Please try again.", true⟩

/-- Toast shown by `handleVoiceCloning` on success. -/
def cloneSuccessToast : Toast :=
  ⟨"Success", "Voice cloned successfully! The new voice is now available.", false⟩

/-- Toast shown by `handleVoiceCloning` on failure: `error.message` with the
JS `||` fallback for an empty message. -/
def cloneErrorToast (msg : String) : Toast :=
  ⟨"Error", if msg = "" then "Failed to clone voice. Please try again." else msg, true⟩

/-- The JSON body the client posts to `/api/tts`. -/
structure TtsClientBody where
  text : String
  voiceId : String
  stability : ℚ
  similarity_boost : ℚ
  style : ℚ
  use_speaker_boost : Bool
  deriving Repr, DecidableEq

/-- Observable side effects of one `synthesizeSpeech` run, in program order. -/
inductive SynthEvent where
  | fetchTts (body : TtsClientBody)
  | artifactSaved
  | historyAppended
  | srcStop (id : Nat)
  | srcDisconnect (id : Nat)
  | srcStart (id : Nat)
  deriving Repr, DecidableEq

/-- Result of the `/api/tts` fetch as seen by the client: either the audio
bytes, or a failure (a network throw and a non-ok status are handled by the
same `throw` + `catch` path before any state beyond the flags changed). -/
inductive FetchOutcome where
  | ok (bytes : List Nat)
  | fail
  deriving Repr, DecidableEq

/-- Environment of one `synthesizeSpeech` call: `Date.now()`, the fetch
result, whether `decodeAudioData` succeeds, and the id of the freshly
created source node. -/
structure SynthEnv where
  now : Nat
  fetch : FetchOutcome
  decodeOk : Bool
  newSourceId : Nat
  deriving Repr, DecidableEq

/-- `voices.find(v => v.voice_id === selectedVoice)?.name || "Unknown Voice"`;
the `||` also replaces an empty (falsy) name. -/
def voiceNameOf (voices : List Voice) (vid : String) : String :=
  match voices.find? (fun v => v.voice_id == vid) with
  | some v => if v.name = "" then "Unknown Voice" else v.name
  | none => "Unknown Voice"

/-- The history entry built inside `synthesizeSpeech`. -/
def mkHistoryItem (now : Nat) (st : AppState) : AudioHistory :=
  { id := toString now, text := st.text, voiceId := st.selectedVoice,
    voiceName := voiceNameOf st.voices st.selectedVoice,
    timestamp := now, duration := st.estimatedDuration }

/-- The history updater `prev => [newHistoryItem, ...prev].slice(0, 10)`. -/
def historyPrepend (item : AudioHistory) (prev : List AudioHistory) : List AudioHistory :=
  (item :: prev).take 10

/-- The body sent by the client's `/api/tts` fetch. -/
def ttsClientBody (st : AppState) : TtsClientBody :=
  { text := st.text, voiceId := st.selectedVoice, stability := elem0 st.stability,
    similarity_boost := elem0 st.similarity, style := elem0 st.style,
    use_speaker_boost := st.speakerBoost }

/-- `synthesizeSpeech`: validate text, set the flags, fetch `/api/tts`,
save the artifact, prepend the history entry, then stop any previous
source, decode and start playback.  Errors fall into the `catch` block
(error toast, `isPlaying := false`) and `finally` clears `isLoading`. -/
def synthesizeSpeech (env : SynthEnv) (st : AppState) : AppState × List SynthEvent :=
  if jsTrim st.text = "" then
    (pushToast st emptyTextToast, [])
  else
    let st1 : AppState := { st with isLoading := true, isPlaying := true, audioCtxInit := true }
    let body := ttsClientBody st1
    match env.fetch with
    | FetchOutcome.fail =>
        ({ pushToast st1 synthFailToast with isPlaying := false, isLoading := false },
          [SynthEvent.fetchTts body])
    | FetchOutcome.ok bytes =>
        let st2 : AppState :=
          { st1 with savedAudio := some ⟨bytes, st1.text, st1.selectedVoice, env.now⟩ }
        let item := mkHistoryItem env.now st2
        let st3 : AppState := { st2 with audioHistory := historyPrepend item st2.audioHistory }
        let stopEvts : List SynthEvent :=
          match st3.sourceRef with
          | some old => [SynthEvent.srcStop old, SynthEvent.srcDisconnect old]
          | none => []
        if env.decodeOk then
          let st4 : AppState :=
            { st3 with sourceRef := some env.newSourceId,
                       gainValue := elem0 st3.volume / 100, isLoading := false }
          (pushToast st4 synthSuccessToast,
            [SynthEvent.fetchTts body, SynthEvent.artifactSaved, SynthEvent.historyAppended]
              ++ stopEvts ++ [SynthEvent.srcStart env.newSourceId])
        else
          ({ pushToast st3 synthFailToast with isPlaying := false, isLoading := false },
            [SynthEvent.fetchTts body, SynthEvent.artifactSaved, SynthEvent.historyAppended]
              ++ stopEvts)

/-- `stopSpeech`: stop, disconnect and clear the active source if any, then
clear the playing flag. -/
def stopSpeech (st : AppState) : AppState × List SynthEvent :=
  match st.sourceRef with
  | some s =>
      ({ st with sourceRef := none, isPlaying := false },
        [SynthEvent.srcStop s, SynthEvent.srcDisconnect s])
  | none => ({ st with isPlaying := false }, [])

/-- `handleVolumeChange`: store the slider value and, when the gain node
exists, set its gain to `value / 100`. -/
def handleVolumeChange (newVolume : List ℚ) (st : AppState) : AppState :=
  { st with volume := newVolume,
            gainValue := if st.audioCtxInit then elem0 newVolume / 100 else st.gainValue }

/-- `handleMuteToggle`: unmuting restores the saved volume; muting saves the
current volume and zeroes it. -/
def handleMuteToggle (st : AppState) : AppState :=
  if st.isMuted then
    { st with volume := st.previousVolume, isMuted := false }
  else
    { st with previousVolume := st.volume, volume := [0], isMuted := true }

/-- `handleSavePreset`: ignore blank names, otherwise append a preset built
from the current voice and settings, toast, close the dialog. -/
def handleSavePreset (now : Nat) (name : String) (st : AppState) : AppState :=
  if jsTrim name = "" then st
  else
    let newPreset : VoicePreset :=
      { id := toString now, name := name, voiceId := st.selectedVoice,
        settings := { stability := elem0 st.stability, similarity := elem0 st.similarity,
                      style := elem0 st.style, use_speaker_boost := st.speakerBoost } }
    { pushToast { st with presets := st.presets ++ [newPreset] } (presetSavedToast name) with
        isPresetDialogOpen := false, presetName := "" }

/-- `loadPreset`: look the id up; on a hit apply the stored voice and
settings, record the selection and toast; on a miss do nothing. -/
def loadPreset (presetId : String) (st : AppState) : AppState :=
  match st.presets.find? (fun p => p.id == presetId) with
  | some preset =>
      pushToast
        { st with selectedVoice := preset.voiceId,
                  stability := [preset.settings.stability],
                  similarity := [preset.settings.similarity],
                  style := [preset.settings.style],
                  speakerBoost := preset.settings.use_speaker_boost,
                  selectedPreset := some presetId }
        (presetLoadedToast preset.name)
  | none => st

/-- `resetRecording`: discard the finalized sample and its URL, zero the
duration counter, pause any preview and clear the playing flag. -/
def resetRecording (st : AppState) : AppState :=
  { st with recordedAudio := none, audioURL := none, recordingDuration := 0,
            isPlaying := false }

/-- `handleDeleteVoice` with the fetch outcome passed in: on success filter
the voice out and clear the selection when it was the deleted one. -/
def handleDeleteVoice (fetchOk : Bool) (voiceId : String) (st : AppState) : AppState :=
  if fetchOk then
    let st1 : AppState := { st with voices := st.voices.filter (fun v => v.voice_id != voiceId) }
    let st2 : AppState :=
      if st1.selectedVoice = voiceId then { st1 with selectedVoice := "" } else st1
    pushToast st2 deleteVoiceSuccessToast
  else
    pushToast st deleteVoiceFailToast

/-- Settled result of the `/api/clone-voice` fetch inside `handleVoiceCloning`. -/
inductive CloneOutcome where
  | netFail (msg : String)
  | httpFail (errMsg : Option String)
  | missingVoiceId
  | ok (voice_id : String)
  deriving Repr, DecidableEq

/-- `handleVoiceCloning` at settle time: the try/catch branches followed by
the `finally` block, which always clears the cloning flag, the selected
file, the entered name, the progress bar, and the finalized recording. -/
def handleVoiceCloning (fileOrBlob : Option (List Nat)) (outcome : CloneOutcome)
    (name : String) (st : AppState) : AppState :=
  let _ := fileOrBlob
  let st0 : AppState := { st with isCloning := true, uploadProgress := 0 }
  let st1 : AppState :=
    match outcome with
    | CloneOutcome.netFail msg =>
        pushToast { st0 with uploadProgress := 0 } (cloneErrorToast msg)
    | CloneOutcome.httpFail errMsg =>
        pushToast { st0 with uploadProgress := 0 }
          (cloneErrorToast (errMsg.getD "Failed to clone voice"))
    | CloneOutcome.missingVoiceId =>
        pushToast { st0 with uploadProgress := 0 }
          (cloneErrorToast "Invalid response from voice cloning service")
    | CloneOutcome.ok vid =>
        let newVoice : Voice := { voice_id := vid, name := name, category := "custom" }
        { pushToast { st0 with uploadProgress := 100,
                               voices := st0.voices ++ [newVoice],
                               selectedVoice := vid } cloneSuccessToast with
            isVoiceDialogOpen := false }
  resetRecording
    { st1 with isCloning := false, selectedFile := none, voiceName := "",
               uploadProgress := 0 }

/-- Audible-source semantics of the playback events: `srcStop` silences a
node, `srcStart` makes one audible. -/
def applyAudio (audible : List Nat) : SynthEvent → List Nat
  | SynthEvent.srcStop i => audible.filter (fun j => j != i)
  | SynthEvent.srcStart i => audible ++ [i]
  | _ => audible

/-- Run a trace of playback events over the set of audible nodes. -/
def runAudio (audible : List Nat) (evts : List SynthEvent) : List Nat :=
  evts.foldl applyAudio audible

/-- Does an event mark artifact creation (`setSavedAudio`)? -/
def isArtifactEvent : SynthEvent → Bool
  | SynthEvent.artifactSaved => true
  | _ => false

/-- Does an event mark the history append (`setAudioHistory`)? -/
def isHistoryEvent : SynthEvent → Bool
  | SynthEvent.historyAppended => true
  | _ => false

/-- Does an event mark a playback start (`source.start(0)`)? -/
def isStartEvent : SynthEvent → Bool
  | SynthEvent.srcStart _ => true
  | _ => false

/-- Does an event mark a network call to `/api/tts`? -/
def isFetchEvent : SynthEvent → Bool
  | SynthEvent.fetchTts _ => true
  | _ => false

/-- Example voice used by the concrete runs below. -/
def demoVoice : Voice := ⟨"v1", "Alice", "premade"⟩

/-- Example environment: the fetch succeeds and the decode succeeds. -/
def demoEnv : SynthEnv :=
  { now := 17, fetch := FetchOutcome.ok [1, 2, 3], decodeOk := true, newSourceId := 42 }

/-- Example environment: the fetch fails. -/
def demoEnvFail : SynthEnv :=
  { now := 17, fetch := FetchOutcome.fail, decodeOk := false, newSourceId := 42 }

/-- Example state: non-empty text, a selected voice, an active source. -/
def demoState : AppState :=
  { initialState with text := "Hello world", selectedVoice := "v1",
                      voices := [demoVoice], sourceRef := some 7 }

/-- Example state with non-empty text but no selected voice. -/
def noVoiceState : AppState := { initialState with text := "Hello" }

/-- Request body accepted by the `POST /api/tts` proxy route.  Fields the
route destructures with a default are `Option`-valued here; the defaults are
applied inside the handler exactly as in the destructuring pattern. -/
structure TtsBody where
  text : String
  voiceId : String
  modelId : Option String
  stability : Option ℚ
  similarity_boost : Option ℚ
  style : Option ℚ
  use_speaker_boost : Option Bool
  deriving Repr, DecidableEq

/-- The `voice_settings` object the route serialises for the Gateway.
`stability` and `similarity_boost` have no default in the destructuring, so
an absent field stays absent (`JSON.stringify` drops `undefined`). -/
structure VoiceSettingsPayload where
  stability : Option ℚ
  similarity_boost : Option ℚ
  style : ℚ
  use_speaker_boost : Bool
  deriving Repr, DecidableEq

/-- The request the route forwards to the Gateway's text-to-speech endpoint. -/
structure GatewayTtsRequest where
  voiceId : String
  text : String
  model_id : String
  voice_settings : VoiceSettingsPayload
  deriving Repr, DecidableEq

/-- Outcome of the route's fetch to the Gateway. -/
inductive GatewayOutcome where
  | ok (bytes : List Nat)
  | httpFail (detailMsg : Option String)
  | netFail
  deriving Repr, DecidableEq

/-- Response produced by a proxy route: raw bytes with a content type, or an
`{error}` JSON body with a status code. -/
inductive RouteResponse where
  | audio (bytes : List Nat) (contentType : String)
  | jsonError (msg : String) (status : Nat)
  deriving Repr, DecidableEq

namespace ApiTts

/-- `POST` handler of the tts proxy route (`app/api/tts/route.ts`, the
document bundled with `src/app/api/history/route.ts`): destructure the body
with defaults `modelId = eleven_multilingual_v2`, `style = 0`,
`use_speaker_boost = true`, forward text, model id and the voice settings to
the Gateway, and relay audio bytes on success; every failure (missing
credential, gateway error, network throw) falls into the catch-all
`{error}` 500 response.  Returns the response paired with the forwarded
Gateway request, when one was issued. -/
def POST (apiKey : Option String) (body : TtsBody) (gw : GatewayOutcome) :
    RouteResponse × Option GatewayTtsRequest :=
  match apiKey with
  | none => (RouteResponse.jsonError "Failed to convert text to speech" 500, none)
  | some _ =>
      let req : GatewayTtsRequest :=
        { voiceId := body.voiceId, text := body.text,
          model_id := body.modelId.getD "eleven_multilingual_v2",
          voice_settings :=
            { stability := body.stability,
              similarity_boost := body.similarity_boost,
              style := body.style.getD 0,
              use_speaker_boost := body.use_speaker_boost.getD true } }
      match gw with
      | GatewayOutcome.ok bytes => (RouteResponse.audio bytes "audio/mpeg", some req)
      | GatewayOutcome.httpFail _ =>
          (RouteResponse.jsonError "Failed to convert text to speech" 500, some req)
      | GatewayOutcome.netFail =>
          (RouteResponse.jsonError "Failed to convert text to speech" 500, some req)

end ApiTts

namespace ApiTtsLegacy

/-- The `voice_settings` sent by the older route variant. -/
structure LegacyVoiceSettings where
  stability : ℚ
  similarity_boost : ℚ
  deriving Repr, DecidableEq

/-- Older `POST` handler found at `src/app/api/tts/route.ts`: it reads only
`text`, `voiceId` and `modelId` (default `eleven_monolingual_v1`) from the
body and always sends fixed voice settings `stability = 0.5`,
`similarity_boost = 0.5`; the settings carried by the request are ignored. -/
def POST (apiKey : Option String) (body : TtsBody) (gw : GatewayOutcome) :
    RouteResponse × Option (String × String × String × LegacyVoiceSettings) :=
  match apiKey with
  | none => (RouteResponse.jsonError "Failed to convert text to speech" 500, none)
  | some _ =>
      let req := (body.voiceId, body.text, body.modelId.getD "eleven_monolingual_v1",
        (⟨0.5, 0.5⟩ : LegacyVoiceSettings))
      match gw with
      | GatewayOutcome.ok bytes => (RouteResponse.audio bytes "audio/mpeg", some req)
      | GatewayOutcome.httpFail _ =>
          (RouteResponse.jsonError "Failed to convert text to speech" 500, some req)
      | GatewayOutcome.netFail =>
          (RouteResponse.jsonError "Failed to convert text to speech" 500, some req)

end ApiTtsLegacy

/-- C6: muting saves the current volume and zeroes it, and a subsequent
unmute restores exactly the pre-mute volume value. -/
theorem C6_mute_roundtrip (st : AppState) (h : st.isMuted = false) :
    (handleMuteToggle st).volume = [0]
  ∧ (handleMuteToggle st).isMuted = true
  ∧ (handleMuteToggle st).previousVolume = st.volume
  ∧ (handleMuteToggle (handleMuteToggle st)).volume = st.volume
  ∧ (handleMuteToggle (handleMuteToggle st)).isMuted = false := by
  simp [handleMuteToggle, h]

/-- C6 witness: the mute/unmute round trip on the initial state (volume 50). -/
theorem C6_mute_roundtrip_witness :
    (handleMuteToggle initialState).volume = [0]
  ∧ (handleMuteToggle initialState).isMuted = true
  ∧ (handleMuteToggle initialState).previousVolume = initialState.volume
  ∧ (handleMuteToggle (handleMuteToggle initialState)).volume = initialState.volume
  ∧ (handleMuteToggle (handleMuteToggle initialState)).isMuted = false :=
  C6_mute_roundtrip initialState rfl

/-- C9: loading a preset id that matches no stored preset changes nothing at
all — no field of the state is touched and no notification is emitted (the
toast log is part of the state). -/
theorem C9_load_unknown_preset_noop (presetId : String) (st : AppState)
    (h : ∀ p ∈ st.presets, p.id ≠ presetId) :
    loadPreset presetId st = st := by
  have hf : st.presets.find? (fun p => p.id == presetId) = none := by
    rw [List.find?_eq_none]
    intro p hp
    simpa using h p hp
  simp [loadPreset, hf]

/-- C9 witness: loading a missing preset id on the initial state. -/
theorem C9_load_unknown_preset_noop_witness :
    loadPreset "missing" initialState = initialState :=
  C9_load_unknown_preset_noop "missing" initialState
    (by intro p hp; simp [initialState] at hp)

/-- C10: whatever the clone fetch outcome, once `handleVoiceCloning`
settles the cloning flag is down, the selected file is cleared, the entered
voice name is reset to empty, the upload progress is back at 0 and any
finalized recording (and its URL and duration) is discarded. -/
theorem C10_clone_settles_reset (fileOrBlob : Option (List Nat))
    (outcome : CloneOutcome) (name : String) (st : AppState) :
    (handleVoiceCloning fileOrBlob outcome name st).isCloning = false
  ∧ (handleVoiceCloning fileOrBlob outcome name st).selectedFile = none
  ∧ (handleVoiceCloning fileOrBlob outcome name st).voiceName = ""
  ∧ (handleVoiceCloning fileOrBlob outcome name st).uploadProgress = 0
  ∧ (handleVoiceCloning fileOrBlob outcome name st).recordedAudio = none
  ∧ (handleVoiceCloning fileOrBlob outcome name st).audioURL = none
  ∧ (handleVoiceCloning fileOrBlob outcome name st).recordingDuration = 0 := by
  cases outcome <;> simp [handleVoiceCloning, resetRecording, pushToast]

/-- C8: after a successful delete, the voice is filtered out of the local
list; the selection is cleared exactly when the deleted voice was selected
and is untouched otherwise. -/
theorem C8_delete_voice (voiceId : String) (st : AppState) :
    ((handleDeleteVoice true voiceId st).voices
        = st.voices.filter (fun v => v.voice_id != voiceId))
  ∧ (∀ v ∈ (handleDeleteVoice true voiceId st).voices, v.voice_id ≠ voiceId)
  ∧ (st.selectedVoice = voiceId → (handleDeleteVoice true voiceId st).selectedVoice = "")
  ∧ (st.selectedVoice ≠ voiceId →
        (handleDeleteVoice true voiceId st).selectedVoice = st.selectedVoice) := by
  refine ⟨?_, ?_, ?_, ?_⟩
  · by_cases hsel : st.selectedVoice = voiceId <;>
      simp [handleDeleteVoice, pushToast, hsel]
  · intro v hv
    by_cases hsel : st.selectedVoice = voiceId <;>
      simp [handleDeleteVoice, pushToast, hsel, List.mem_filter] at hv <;>
      simpa using hv.2
  · intro hsel; simp [handleDeleteVoice, pushToast, hsel]
  · intro hsel; simp [handleDeleteVoice, pushToast, hsel]

/-- C8 witness: deleting the selected voice `v1` from the demo state clears
the selection and removes the voice from the list. -/
theorem C8_delete_voice_witness :
    ((handleDeleteVoice true "v1" demoState).voices
        = demoState.voices.filter (fun v => v.voice_id != "v1"))
  ∧ (handleDeleteVoice true "v1" demoState).selectedVoice = "" :=
  ⟨(C8_delete_voice "v1" demoState).1, (C8_delete_voice "v1" demoState).2.2.1 rfl⟩

/-- C5: for a request to the tts proxy route carrying text, voiceId, an
optional modelId and all four voice settings, the route forwards exactly
those stability, similarity_boost, style and use_speaker_boost values to
the Gateway as the voice settings, and answers raw audio bytes with an
audio content type on success and an `{error}` JSON body on failure. -/
theorem C5_tts_forwarding (key t vid : String) (mid : Option String)
    (s sb sty : ℚ) (usb : Bool) (gw : GatewayOutcome) :
    (∃ req,
        (ApiTts.POST (some key)
            (TtsBody.mk t vid mid (some s) (some sb) (some sty) (some usb)) gw).2 = some req
      ∧ req.voice_settings = VoiceSettingsPayload.mk (some s) (some sb) sty usb
      ∧ req.text = t ∧ req.voiceId = vid)
  ∧ (∀ bytes, gw = GatewayOutcome.ok bytes →
        (ApiTts.POST (some key)
            (TtsBody.mk t vid mid (some s) (some sb) (some sty) (some usb)) gw).1
          = RouteResponse.audio bytes "audio/mpeg")
  ∧ (∀ msg, gw = GatewayOutcome.httpFail msg →
        (ApiTts.POST (some key)
            (TtsBody.mk t vid mid (some s) (some sb) (some sty) (some usb)) gw).1
          = RouteResponse.jsonError "Failed to convert text to speech" 500)
  ∧ (gw = GatewayOutcome.netFail →
        (ApiTts.POST (some key)
            (TtsBody.mk t vid mid (some s) (some sb) (some sty) (some usb)) gw).1
          = RouteResponse.jsonError "Failed to convert text to speech" 500) := by
  refine ⟨?_, ?_, ?_, ?_⟩
  · cases gw <;> exact ⟨_, rfl, rfl, rfl, rfl⟩
  · intro bytes hgw; subst hgw; rfl
  · intro msg hgw; subst hgw; rfl
  · intro hgw; subst hgw; rfl

/-- C5 witness: a concrete request with explicit settings, run once against
a succeeding Gateway and once against an unreachable one. -/
theorem C5_tts_forwarding_witness :
    (∃ req,
        (ApiTts.POST (some "key")
            (TtsBody.mk "hi" "v1" none (some 1) (some 0) (some 1) (some false))
            (GatewayOutcome.ok [9])).2 = some req
      ∧ req.voice_settings = VoiceSettingsPayload.mk (some 1) (some 0) 1 false
      ∧ req.text = "hi" ∧ req.voiceId = "v1")
  ∧ (ApiTts.POST (some "key")
        (TtsBody.mk "hi" "v1" none (some 1) (some 0) (some 1) (some false))
        (GatewayOutcome.ok [9])).1 = RouteResponse.audio [9] "audio/mpeg"
  ∧ (ApiTts.POST (some "key")
        (TtsBody.mk "hi" "v1" none (some 1) (some 0) (some 1) (some false))
        GatewayOutcome.netFail).1
      = RouteResponse.jsonError "Failed to convert text to speech" 500 :=
  ⟨(C5_tts_forwarding "key" "hi" "v1" none 1 0 1 false (GatewayOutcome.ok [9])).1,
   (C5_tts_forwarding "key" "hi" "v1" none 1 0 1 false (GatewayOutcome.ok [9])).2.1 [9] rfl,
   (C5_tts_forwarding "key" "hi" "v1" none 1 0 1 false GatewayOutcome.netFail).2.2.2 rfl⟩

/-- Helper: `find?` skips a block in which no element satisfies the predicate. -/
theorem find?_append_of_none {α : Type} (p : α → Bool) (l₁ l₂ : List α)
    (h : l₁.find? p = none) : (l₁ ++ l₂).find? p = l₂.find? p := by
  rw [List.find?_append, h, Option.none_or]

/-- C7: saving a preset under a fresh id and then loading that preset
reproduces exactly the voice id and the settings bundle (stability,
similarity, style, speaker boost) that were active at save time. -/
theorem C7_preset_roundtrip (now : Nat) (name : String) (st : AppState)
    (s m y : ℚ) (hname : jsTrim name ≠ "")
    (hs : st.stability = [s]) (hm : st.similarity = [m]) (hy : st.style = [y])
    (hfresh : ∀ p ∈ st.presets, p.id ≠ toString now) :
    (loadPreset (toString now) (handleSavePreset now name st)).selectedVoice
        = st.selectedVoice
  ∧ (loadPreset (toString now) (handleSavePreset now name st)).stability = [s]
  ∧ (loadPreset (toString now) (handleSavePreset now name st)).similarity = [m]
  ∧ (loadPreset (toString now) (handleSavePreset now name st)).style = [y]
  ∧ (loadPreset (toString now) (handleSavePreset now name st)).speakerBoost
        = st.speakerBoost := by
  have hnone : st.presets.find? (fun p => p.id == toString now) = none := by
    rw [List.find?_eq_none]
    intro p hp
    simpa using hfresh p hp
  simp only [handleSavePreset, if_neg hname, loadPreset, pushToast]
  rw [find?_append_of_none _ _ _ hnone]
  simp [hs, hm, hy, elem0]

/-- C7 witness: save then load round trip on the initial state at time 5. -/
theorem C7_preset_roundtrip_witness :
    (loadPreset (toString 5) (handleSavePreset 5 "My preset" initialState)).selectedVoice
        = initialState.selectedVoice
  ∧ (loadPreset (toString 5) (handleSavePreset 5 "My preset" initialState)).stability
        = [0.5]
  ∧ (loadPreset (toString 5) (handleSavePreset 5 "My preset" initialState)).similarity
        = [0.70]
  ∧ (loadPreset (toString 5) (handleSavePreset 5 "My preset" initialState)).style = [0]
  ∧ (loadPreset (toString 5) (handleSavePreset 5 "My preset" initialState)).speakerBoost
        = initialState.speakerBoost :=
  C7_preset_roundtrip 5 "My preset" initialState 0.5 0.70 0 (by decide) rfl rfl rfl
    (by intro p hp; simp [initialState] at hp)

/-- C1 counterexample: with non-empty text and the selected voice id unset,
`synthesizeSpeech` still issues the `/api/tts` network call — there is no
local validation of the voice id, contradicting the claim that an unset
voice id fails fast with a validation error and no network call. -/
theorem C1_counterexample :
    noVoiceState.selectedVoice = ""
  ∧ jsTrim noVoiceState.text ≠ ""
  ∧ (synthesizeSpeech demoEnvFail noVoiceState).2.countP isFetchEvent = 1 := by
  refine ⟨rfl, by decide, ?_⟩
  rfl

/-- C1 (amended): `synthesizeSpeech` fails fast — validation toast, no
event, no other state change — exactly when the text is empty or
whitespace-only; with non-empty text the `/api/tts` call is always issued,
whether or not a voice id is selected. -/
theorem C1_empty_text_validation (env : SynthEnv) (st : AppState) :
    (jsTrim st.text = "" →
        synthesizeSpeech env st = (pushToast st emptyTextToast, []))
  ∧ (jsTrim st.text ≠ "" →
        (synthesizeSpeech env st).2.countP isFetchEvent = 1) := by
  constructor
  · intro h
    simp [synthesizeSpeech, h]
  · intro h
    simp only [synthesizeSpeech, if_neg h]
    cases hf : env.fetch with
    | fail => rfl
    | ok bytes =>
        cases hs : st.sourceRef <;> cases hd : env.decodeOk <;>
          simp [hs, hd, List.countP_append, List.countP_cons, isFetchEvent]

/-- C1 witness: the empty-text fast failure on the initial state, and the
issued fetch on the no-voice state. -/
theorem C1_empty_text_validation_witness :
    synthesizeSpeech demoEnvFail initialState
        = (pushToast initialState emptyTextToast, [])
  ∧ (synthesizeSpeech demoEnv noVoiceState).2.countP isFetchEvent = 1 :=
  ⟨(C1_empty_text_validation demoEnvFail initialState).1 rfl,
   (C1_empty_text_validation demoEnv noVoiceState).2 (by decide)⟩

/-- Helper: the history updater is literally a prepend that keeps the 9
newest previous entries. -/
theorem historyPrepend_eq (item : AudioHistory) (prev : List AudioHistory) :
    historyPrepend item prev = item :: prev.take 9 := rfl

/-- Helper: the event trace of a `synthesizeSpeech` run whose fetch
succeeded — the fetch, the artifact save and the history append, then the
stop/disconnect of a held source, then the new start if the decode worked. -/
theorem synthesizeSpeech_trace (env : SynthEnv) (st : AppState) (bytes : List Nat)
    (htext : jsTrim st.text ≠ "") (hfetch : env.fetch = FetchOutcome.ok bytes) :
    (synthesizeSpeech env st).2
      = [SynthEvent.fetchTts (ttsClientBody st), SynthEvent.artifactSaved,
          SynthEvent.historyAppended]
        ++ (match st.sourceRef with
            | some old => [SynthEvent.srcStop old, SynthEvent.srcDisconnect old]
            | none => [])
        ++ (if env.decodeOk then [SynthEvent.srcStart env.newSourceId] else []) := by
  cases hs : st.sourceRef <;> cases hd : env.decodeOk <;>
    simp [synthesizeSpeech, if_neg htext, hfetch, hs, hd, ttsClientBody]

/-- Helper: the history field after a `synthesizeSpeech` run whose fetch
succeeded, regardless of the decode outcome and of any held source. -/
theorem synthesizeSpeech_history (env : SynthEnv) (st : AppState) (bytes : List Nat)
    (htext : jsTrim st.text ≠ "") (hfetch : env.fetch = FetchOutcome.ok bytes) :
    (synthesizeSpeech env st).1.audioHistory
      = historyPrepend (mkHistoryItem env.now st) st.audioHistory := by
  cases hs : st.sourceRef <;> cases hd : env.decodeOk <;>
    simp [synthesizeSpeech, if_neg htext, hfetch, hs, hd, pushToast,
      mkHistoryItem, historyPrepend]

/-- C2: every successful synthesis prepends the new entry and truncates to
the 10 most recent; the result never exceeds 10 entries, its head is the
new entry, and only the 9 newest previous entries survive — with a full
collection of 10 (kept newest-first by this very updater) the positionally
last, i.e. oldest, entry is evicted. -/
theorem C2_history_bound (env : SynthEnv) (st : AppState) (bytes : List Nat)
    (htext : jsTrim st.text ≠ "") (hfetch : env.fetch = FetchOutcome.ok bytes) :
    (synthesizeSpeech env st).1.audioHistory
        = historyPrepend (mkHistoryItem env.now st) st.audioHistory
  ∧ (synthesizeSpeech env st).1.audioHistory.length ≤ 10
  ∧ (synthesizeSpeech env st).1.audioHistory.head?
        = some (mkHistoryItem env.now st)
  ∧ (synthesizeSpeech env st).1.audioHistory
        = mkHistoryItem env.now st :: st.audioHistory.take 9 := by
  have hmain := synthesizeSpeech_history env st bytes htext hfetch
  refine ⟨hmain, ?_, ?_, ?_⟩
  · rw [hmain, historyPrepend_eq]
    have h9 := List.length_take_le 9 st.audioHistory
    simp only [List.length_cons]
    omega
  · rw [hmain, historyPrepend_eq]; rfl
  · rw [hmain, historyPrepend_eq]

/-- C2 witness: a successful synthesis on the demo state. -/
theorem C2_history_bound_witness :
    (synthesizeSpeech demoEnv demoState).1.audioHistory
        = historyPrepend (mkHistoryItem demoEnv.now demoState) demoState.audioHistory
  ∧ (synthesizeSpeech demoEnv demoState).1.audioHistory.length ≤ 10
  ∧ (synthesizeSpeech demoEnv demoState).1.audioHistory.head?
        = some (mkHistoryItem demoEnv.now demoState)
  ∧ (synthesizeSpeech demoEnv demoState).1.audioHistory
        = mkHistoryItem demoEnv.now demoState :: demoState.audioHistory.take 9 :=
  C2_history_bound demoEnv demoState [1, 2, 3] (by decide) rfl

/-- C3: at most one playback source is active — on the successful path with
a previous source handle held, the trace stops and disconnects the old
source strictly before starting the new one, and running the audible-source
semantics from the single old source ends with exactly the new source
audible and referenced; `stopSpeech` with no active source only clears the
playing flag, leaves the handle cleared and emits no events. -/
theorem C3_single_active_source :
    (∀ (env : SynthEnv) (st : AppState) (old : Nat) (bytes : List Nat),
        jsTrim st.text ≠ "" → env.fetch = FetchOutcome.ok bytes →
        env.decodeOk = true → st.sourceRef = some old →
        (∃ l1 l2 l3,
            (synthesizeSpeech env st).2
              = l1 ++ [SynthEvent.srcStop old, SynthEvent.srcDisconnect old] ++ l2
                  ++ [SynthEvent.srcStart env.newSourceId] ++ l3)
        ∧ runAudio [old] (synthesizeSpeech env st).2 = [env.newSourceId]
        ∧ (synthesizeSpeech env st).1.sourceRef = some env.newSourceId)
  ∧ (∀ st : AppState, st.sourceRef = none →
        stopSpeech st = ({ st with isPlaying := false }, [])) := by
  constructor
  · intro env st old bytes htext hfetch hdec hsrc
    have htr := synthesizeSpeech_trace env st bytes htext hfetch
    rw [hsrc, hdec] at htr
    simp only [if_true] at htr
    refine ⟨⟨[SynthEvent.fetchTts (ttsClientBody st), SynthEvent.artifactSaved,
              SynthEvent.historyAppended], [], [], by rw [htr]; rfl⟩, ?_, ?_⟩
    · rw [htr]
      simp [runAudio, applyAudio, bne_self_eq_false]
    · simp [synthesizeSpeech, if_neg htext, hfetch, hsrc, hdec, pushToast]
  · intro st h
    simp [stopSpeech, h]

/-- C3 witness: a successful synthesis on the demo state (which holds
source 7) preempts the old source, and `stopSpeech` on the idle initial
state is a no-op apart from the playing flag. -/
theorem C3_single_active_source_witness :
    ((∃ l1 l2 l3,
        (synthesizeSpeech demoEnv demoState).2
          = l1 ++ [SynthEvent.srcStop 7, SynthEvent.srcDisconnect 7] ++ l2
              ++ [SynthEvent.srcStart demoEnv.newSourceId] ++ l3)
      ∧ runAudio [7] (synthesizeSpeech demoEnv demoState).2 = [demoEnv.newSourceId]
      ∧ (synthesizeSpeech demoEnv demoState).1.sourceRef = some demoEnv.newSourceId)
  ∧ stopSpeech initialState = ({ initialState with isPlaying := false }, []) :=
  ⟨C3_single_active_source.1 demoEnv demoState 7 [1, 2, 3] (by decide) rfl rfl rfl,
   C3_single_active_source.2 initialState rfl⟩

/-- C4: a successful synthesis emits exactly one artifact save and exactly
one history append, in that order, right after the fetch; when the decode
succeeds the playback start is the final event, strictly after both; when
the decode fails the history append still happened and no playback start is
ever emitted. -/
theorem C4_effect_order (env : SynthEnv) (st : AppState) (bytes : List Nat)
    (htext : jsTrim st.text ≠ "") (hfetch : env.fetch = FetchOutcome.ok bytes) :
    (∃ b post,
        (synthesizeSpeech env st).2
          = SynthEvent.fetchTts b :: SynthEvent.artifactSaved ::
              SynthEvent.historyAppended :: post)
  ∧ (synthesizeSpeech env st).2.countP isArtifactEvent = 1
  ∧ (synthesizeSpeech env st).2.countP isHistoryEvent = 1
  ∧ (env.decodeOk = true →
        ∃ mid,
          (synthesizeSpeech env st).2
              = [SynthEvent.fetchTts (ttsClientBody st), SynthEvent.artifactSaved,
                  SynthEvent.historyAppended]
                ++ mid ++ [SynthEvent.srcStart env.newSourceId]
          ∧ mid.countP isStartEvent = 0)
  ∧ (env.decodeOk = false →
        (synthesizeSpeech env st).2.countP isStartEvent = 0) := by
  have htr := synthesizeSpeech_trace env st bytes htext hfetch
  refine ⟨⟨ttsClientBody st,
      (match st.sourceRef with
        | some old => [SynthEvent.srcStop old, SynthEvent.srcDisconnect old]
        | none => [])
        ++ (if env.decodeOk then [SynthEvent.srcStart env.newSourceId] else []),
      by rw [htr]; simp⟩, ?_, ?_, ?_, ?_⟩
  · rw [htr]
    cases hs : st.sourceRef <;> cases hd : env.decodeOk <;>
      simp [hd, List.countP_append, List.countP_cons, isArtifactEvent]
  · rw [htr]
    cases hs : st.sourceRef <;> cases hd : env.decodeOk <;>
      simp [hd, List.countP_append, List.countP_cons, isHistoryEvent]
  · intro hd
    rw [hd] at htr
    simp only [if_true] at htr
    cases hs : st.sourceRef
    · rw [hs] at htr
      exact ⟨[], by rw [htr], rfl⟩
    · rw [hs] at htr
      refine ⟨[SynthEvent.srcStop _, SynthEvent.srcDisconnect _], by rw [htr], rfl⟩
  · intro hd
    rw [htr, hd]
    cases hs : st.sourceRef <;>
      simp [List.countP_append, List.countP_cons, isStartEvent]

/-- C4 witness: the ordered trace of a successful synthesis on the demo
state, with the decode succeeding. -/
theorem C4_effect_order_witness :
    (∃ b post,
        (synthesizeSpeech demoEnv demoState).2
          = SynthEvent.fetchTts b :: SynthEvent.artifactSaved ::
              SynthEvent.historyAppended :: post)
  ∧ (synthesizeSpeech demoEnv demoState).2.countP isArtifactEvent = 1
  ∧ (synthesizeSpeech demoEnv demoState).2.countP isHistoryEvent = 1
  ∧ (∃ mid,
        (synthesizeSpeech demoEnv demoState).2
            = [SynthEvent.fetchTts (ttsClientBody demoState), SynthEvent.artifactSaved,
                SynthEvent.historyAppended]
              ++ mid ++ [SynthEvent.srcStart demoEnv.newSourceId]
        ∧ mid.countP isStartEvent = 0) :=
  ⟨(C4_effect_order demoEnv demoState [1, 2, 3] (by decide) rfl).1,
   (C4_effect_order demoEnv demoState [1, 2, 3] (by decide) rfl).2.1,
   (C4_effect_order demoEnv demoState [1, 2, 3] (by decide) rfl).2.2.1,
   (C4_effect_order demoEnv demoState [1, 2, 3] (by decide) rfl).2.2.2.1 rfl⟩

end TTS
